import Mathlib

/-!
Verification of the Exodus-to-MPAS field conversion script
(`landice/mesh_tools_li/conversion_exodus_init_to_mpasli_mesh.py`).

The script transplants a scalar field from an Exodus source mesh onto an
MPAS target mesh, builds an active-cell mask, flood-fills the remaining
cells across the cell adjacency graph, and finally smooths selected fields.
This file is a shallow embedding of those phases: numpy arrays become
`List` values read with `getD` and written with `set`, numpy fancy
indexing becomes pointwise folds, float arithmetic is carried exactly in
`ℚ`, and code that can raise (asserts, `sys.exit`, out-of-range list
access) returns `Except String`.  Line numbers in doc comments refer to
the Python source.
-/

/-- Resolution of a (possibly negative) numpy index against an array of
length `n`: a negative index addresses from the end, so `-1` denotes the
last entry (`n - 1`). -/
def npIndex (n : Nat) (i : Int) : Nat :=
  (if i < 0 then (n : Int) + i else i).toNat

/-- The target-mesh data the pipeline reads: cell count, cell centroid
coordinates (`xCell`, `yCell`, lines 68-69), the padded neighbor table
`cellsOnCell` and the per-cell degree `nEdgesOnCell` (lines 186-187).
Neighbor ids are stored 1-based with the reserved id 0 meaning
"no neighbor". -/
structure Mesh where
  nCells : Nat
  x : List ℚ
  y : List ℚ
  cellsOnCell : List (List Int)
  nEdgesOnCell : List Nat
deriving DecidableEq

/-- Fixed physical constant (line 62). -/
def ice_density : ℚ := 910

/-- Fixed physical constant (line 63). -/
def ocean_density : ℚ := 1028

/-- Number of set entries of a boolean mask (`np.count_nonzero`). -/
def countTrue (l : List Bool) : Nat := (l.filter (fun b => b)).length

/-- Sum of a list of rationals. -/
def listSum (l : List ℚ) : ℚ := l.foldl (fun a b => a + b) 0

/-- Minimum of a (nonempty) list of rationals (`np.min` / Python `min`). -/
def listMin (l : List ℚ) : ℚ := l.foldl min (l.headD 0)

/-- Fancy-indexed assignment `arr[cells] = data`: entry `cells[k]` receives
`data[k]`. -/
def writeAt (vals : List ℚ) (cells : List Nat) (data : List ℚ) : List ℚ :=
  (List.zip cells data).foldl (fun v p => v.set p.1 p.2) vals

/-- Fancy-indexed read `arr[cells]`. -/
def readAt (vals : List ℚ) (cells : List Nat) : List ℚ :=
  cells.map (fun c => vals.getD c 0)

/-- The thickness write branch of the transplant step (lines 165-173),
with `cells` the 0-based corresponded target cells
(`usefulCellID_array - 1`) and `bedExists` the check
`bedTopography in dataset.variables.keys()` (line 168).  Line 166 writes
the new thickness first; lines 169-170 then snapshot `thicknessOrig` and
`bedTopographyOrig` from the dataset, line 171 forms their sum, line 172
rewrites thickness and line 173 writes the sum minus the new data into
`bedTopography`.  Returns the resulting (thickness, bedTopography)
pair. -/
def thicknessBranch (cells : List Nat) (dataExoLayer : List ℚ)
    (thickness bedTopography : List ℚ) (bedExists : Bool) : List ℚ × List ℚ :=
  let th1 := writeAt thickness cells dataExoLayer
  if bedExists then
    let thicknessOrig := readAt th1 cells
    let bedTopographyOrig := readAt bedTopography cells
    let surfaceTopographyOrig :=
      List.zipWith (fun a b => a + b) thicknessOrig bedTopographyOrig
    let th2 := writeAt th1 cells dataExoLayer
    let bed2 := writeAt bedTopography cells
      (List.zipWith (fun a b => a - b) surfaceTopographyOrig dataExoLayer)
    (th2, bed2)
  else (th1, bedTopography)

/-- The action selected by the per-layer write dispatch (lines 163-179). -/
inductive WriteAction where
  | betaWrite
  | thicknessWrite
  | layeredWrite
  | unsupportedExit
  | plainWrite
deriving DecidableEq

/-- Per-layer write dispatch (lines 163-179).  The fourth branch of the
source is `elif options.var_name in dataset.variables.keys() == False:`;
Python parses this as the chained comparison
`(var_name in keys) and (keys == False)`, and a `dict_keys` view never
compares equal to the boolean `False`, so the second conjunct is the
constant `false` below. -/
def writeDispatch (varName : String) (datasetVars : List String)
    (nVertMax : Nat) : WriteAction :=
  if varName = "beta" then WriteAction.betaWrite
  else if varName = "thickness" then WriteAction.thicknessWrite
  else if 1 < nVertMax then WriteAction.layeredWrite
  else if datasetVars.contains varName && false then WriteAction.unsupportedExit
  else WriteAction.plainWrite

/-- The supported-variable dictionary lookup
`mpas_exodus_var_dic[options.var_name]` (lines 54-60 and 65): a requested
name outside the dictionary raises an uncaught KeyError, halting the run
before anything is read or written. -/
def mpasExodusVarDic (varName : String) : Except String String :=
  if varName = "beta" then Except.ok "basal_friction"
  else if varName = "thickness" then Except.ok "ice_thickness"
  else if varName = "stiffnessFactor" then Except.ok "stiffening_factor"
  else if varName = "basalTemperature" then Except.ok "temperature"
  else if varName = "temperature" then Except.ok "temperature"
  else if varName = "surfaceTemperature" then Except.ok "surface_air_temperature"
  else if varName = "uReconstructX" then Except.ok "solution_1"
  else if varName = "uReconstructY" then Except.ok "solution_2"
  else Except.error "KeyError: unsupported variable name"

/-- The guards and dispatch of the transplant phase in program order: the
dictionary lookup (line 65) runs first, then the vertical-layer probe
`np.shape(dataset.variables[options.var_name])` (line 139), which raises
an uncaught KeyError when the requested name is absent from the output
field set, and only with both reads successful does the per-layer
dispatch (lines 163-179) select a write action.  `nVertMax` is the
shape-derived layer count (lines 139-142), only computable (and only
used) once the variable is present. -/
def transplantDispatch (varName : String) (datasetVars : List String)
    (nVertMax : Nat) : Except String WriteAction :=
  match mpasExodusVarDic varName with
  | Except.error e => Except.error e
  | Except.ok _ =>
    if datasetVars.contains varName then
      Except.ok (writeDispatch varName datasetVars nVertMax)
    else Except.error "KeyError: variable not found in dataset"

/-- Mask construction (lines 194-202): `grd` marks a cell active iff
`thickness * ice_density / ocean_density + bedrock > 0`, `all` iff
`thickness > 0`, and any other scheme is rejected with `sys.exit`.  The
source writes only the fresh `keepCellMask` array; no field value is
touched, which the embedding reflects by returning only the mask. -/
def buildKeepCellMask (scheme : String) (thickness bedrock : List ℚ) :
    Except String (List Bool) :=
  if scheme = "grd" then
    Except.ok (List.zipWith
      (fun t b => decide (t * ice_density / ocean_density + b > 0)) thickness bedrock)
  else if scheme = "all" then
    Except.ok (thickness.map (fun t => decide (t > 0)))
  else Except.error "wrong masking scheme! Set option k as all or grd!"

/-- The neighbor slots of `iCell` up to its declared degree:
`cellsOnCell[iCell, :nEdgesOnCell[iCell]]` (line 225 / line 266 before the
`-1`).  May contain the reserved no-neighbor sentinel id 0. -/
def rawNeighborIds (mesh : Mesh) (iCell : Nat) : List Int :=
  (mesh.cellsOnCell.getD iCell []).take (mesh.nEdgesOnCell.getD iCell 0)

/-- `neighborCellId = cellsOnCell[iCell,:nEdgesOnCell[iCell]] - 1`
(line 225): the 1-based neighbor ids shifted to 0-based, a sentinel 0
becoming `-1`.  The extrapolation phase applies no further filtering. -/
def extrapNeighborIds (mesh : Mesh) (iCell : Nat) : List Int :=
  (rawNeighborIds mesh iCell).map (fun c => c - 1)

/-- The array positions the extrapolation phase actually reads for
`iCell`: numpy resolves a negative entry of `neighborCellId` from the end
of the array, so `-1` reads position `nCells - 1`. -/
def extrapNeighborIdx (mesh : Mesh) (iCell : Nat) : List Nat :=
  (extrapNeighborIds mesh iCell).map (npIndex mesh.nCells)

/-- `nonzero_id` (lines 227-230): the entries of `neighborCellId` whose
mask bit (read through numpy indexing) is set in the frozen mask. -/
def activeNeighborIds (mesh : Mesh) (mask : List Bool) (iCell : Nat) : List Int :=
  (extrapNeighborIds mesh iCell).filter
    (fun c => mask.getD (npIndex mesh.nCells c) false)

/-- Squared centroid distance between `iCell` and the cell at the numpy
resolution of index `j`.  The source (line 241) stores the Euclidean
distance `sqrt((x_i-x_adj)^2 + (y_i-y_adj)^2)`; the square root of a
rational is irrational in general, so the embedding carries the squared
distance.  Squaring is injective on distances and zero exactly when the
distance is zero, which is the only boundary the program tests (the
assert on line 242 and line 284); no theorem below depends on the
magnitude of an individual inverse-distance weight. -/
def ds (mesh : Mesh) (iCell : Nat) (j : Int) : ℚ :=
  (mesh.x.getD iCell 0 - mesh.x.getD (npIndex mesh.nCells j) 0) ^ 2 +
    (mesh.y.getD iCell 0 - mesh.y.getD (npIndex mesh.nCells j) 0) ^ 2

/-- The distances from `iCell` to its active neighbors (`ds`, line 241 /
line 283). -/
def activeDs (mesh : Mesh) (mask : List Bool) (iCell : Nat) : List ℚ :=
  (activeNeighborIds mesh mask iCell).map (ds mesh iCell)

/-- `var_adj` (line 243 / line 285): the field values at the active
neighbors of `iCell`, read from `vals` through numpy indexing. -/
def extrapVarAdj (mesh : Mesh) (mask : List Bool) (vals : List ℚ)
    (iCell : Nat) : List ℚ :=
  (activeNeighborIds mesh mask iCell).map
    (fun j => vals.getD (npIndex mesh.nCells j) 0)

/-- `var_interp` of the IDW rule (line 245 / line 289):
`1.0/sum(1.0/ds) * sum(1.0/ds*var_adj)`. -/
def idwInterp (dsL varAdj : List ℚ) : ℚ :=
  1 / listSum (dsL.map (fun d => 1 / d)) *
    listSum (List.zipWith (fun w v => w * v) (dsL.map (fun d => 1 / d)) varAdj)

/-- The value write and mask update of one extrapolation visit
(lines 244-253), given the already-gathered neighbor values `varAdj`:
`idw` and `min` write `var_interp` into the field and set the cell in
`keepCellMaskNew`; any other scheme is rejected with `sys.exit`
(line 251). -/
def extrapAssign (mesh : Mesh) (scheme : String) (mask : List Bool)
    (iCell : Nat) (varAdj : List ℚ) (acc : List ℚ × List Bool) :
    Except String (List ℚ × List Bool) :=
  if scheme = "idw" then
    Except.ok (acc.1.set iCell (idwInterp (activeDs mesh mask iCell) varAdj),
      acc.2.set iCell true)
  else if scheme = "min" then
    Except.ok (acc.1.set iCell (listMin varAdj), acc.2.set iCell true)
  else Except.error "wrong extrapolation scheme! Set option x as idw or min!"

/-- One extrapolation visit of an inactive cell (lines 225-253).  The
frozen mask `mask` classifies neighbors; the evolving accumulator
`acc = (values, keepCellMaskNew)` supplies the neighbor values and
receives the write.  The assert `np.count_nonzero(ds) == len(ds)`
(line 242) becomes the error branch on a zero distance. -/
def extrapStep (mesh : Mesh) (scheme : String) (mask : List Bool)
    (acc : List ℚ × List Bool) (iCell : Nat) :
    Except String (List ℚ × List Bool) :=
  if 0 < (activeNeighborIds mesh mask iCell).length then
    if (activeDs mesh mask iCell).all (fun d => d != 0) then
      extrapAssign mesh scheme mask iCell (extrapVarAdj mesh mask acc.1 iCell) acc
    else Except.error "AssertionError: zero distance to an active neighbor"
  else Except.ok acc

/-- Variant of `extrapStep` whose neighbor values are read from the
start-of-pass snapshot `vals0` instead of the evolving accumulator; used
to state that the pass never consumes a value it wrote itself. -/
def extrapStepFrozen (mesh : Mesh) (scheme : String) (mask : List Bool)
    (vals0 : List ℚ) (acc : List ℚ × List Bool) (iCell : Nat) :
    Except String (List ℚ × List Bool) :=
  if 0 < (activeNeighborIds mesh mask iCell).length then
    if (activeDs mesh mask iCell).all (fun d => d != 0) then
      extrapAssign mesh scheme mask iCell (extrapVarAdj mesh mask vals0 iCell) acc
    else Except.error "AssertionError: zero distance to an active neighbor"
  else Except.ok acc

/-- `searchCells = np.where(mask == 0)[0]` (line 222 / line 263): the
cells whose mask bit is clear, in increasing order. -/
def searchCellsOf (n : Nat) (mask : List Bool) : List Nat :=
  (List.range n).filter (fun i => !(mask.getD i false))

/-- One pass of the extrapolation while-loop body after the copy on
line 221: the state is `(values, keepCellMaskNew)`, the mask frozen for
the pass is `st.2` (the copy makes `keepCellMask = keepCellMaskNew` at
that point), and the inactive cells are visited in order, threading the
evolving values and `keepCellMaskNew` through `extrapStep`. -/
def extrapolationPass (mesh : Mesh) (scheme : String)
    (st : List ℚ × List Bool) : Except String (List ℚ × List Bool) :=
  (searchCellsOf mesh.nCells st.2).foldlM (extrapStep mesh scheme st.2) st

/-- The pass with every neighbor value read from the start-of-pass
snapshot (the parallel, one-ring-per-pass reading of the algorithm). -/
def extrapolationPassFrozen (mesh : Mesh) (scheme : String)
    (st : List ℚ × List Bool) : Except String (List ℚ × List Bool) :=
  (searchCellsOf mesh.nCells st.2).foldlM
    (extrapStepFrozen mesh scheme st.2 st.1) st

/-- State of the extrapolation while-loop (lines 219-256): the field
values, `keepCellMaskNew`, and `keepCellMask` as left by the previous
iteration (the loop guard on line 219 reads the latter). -/
structure ExtState where
  vals : List ℚ
  maskNew : List Bool
  maskCur : List Bool
deriving DecidableEq

/-- One iteration of the while-loop body (lines 221-256):
`keepCellMask = np.copy(keepCellMaskNew)` then the pass over the newly
frozen mask. -/
def extrapLoopBody (mesh : Mesh) (scheme : String) (st : ExtState) :
    Except String ExtState :=
  match extrapolationPass mesh scheme (st.vals, st.maskNew) with
  | Except.error e => Except.error e
  | Except.ok r => Except.ok ⟨r.1, r.2, st.maskNew⟩

/-- The extrapolation while-loop (line 219):
`while np.count_nonzero(keepCellMask) != nCells`.  The source has no
termination measure, so the embedding carries explicit fuel; the returned
boolean is `true` when the guard failed (normal exit) and `false` when
the fuel ran out with the guard still holding. -/
def runExtrapolationLoop (mesh : Mesh) (scheme : String) :
    Nat → ExtState → Except String (ExtState × Bool)
  | 0, st => Except.ok (st, false)
  | fuel + 1, st =>
    if countTrue st.maskCur = mesh.nCells then Except.ok (st, true)
    else
      match extrapLoopBody mesh scheme st with
      | Except.error e => Except.error e
      | Except.ok st2 => runExtrapolationLoop mesh scheme fuel st2

/-- The whole extrapolation phase (lines 215-256): for the thickness
field the loop is skipped entirely (lines 215-216), otherwise the
while-loop runs. -/
def runExtrapolationPhase (mesh : Mesh) (varName scheme : String)
    (fuel : Nat) (st : ExtState) : Except String (ExtState × Bool) :=
  if varName = "thickness" then Except.ok (st, true)
  else runExtrapolationLoop mesh scheme fuel st

/-- `cell_nonzero_id` of the smoothing phase (lines 266-268): the
neighbor ids with the sentinel filtered out —
`nonzero_idx, = np.nonzero(neighborCellId + 1)` keeps exactly the
entries different from `-1`, i.e. drops every reserved no-neighbor
slot. -/
def smoothNeighborIds (mesh : Mesh) (iCell : Nat) : List Int :=
  (extrapNeighborIds mesh iCell).filter (fun c => c + 1 != 0)

/-- The active neighbors used by the smoothing phase (lines 270-273):
the sentinel-filtered neighbors whose bit is set in `keepCellMask`. -/
def smoothActiveNeighborIds (mesh : Mesh) (mask : List Bool) (iCell : Nat) :
    List Int :=
  (smoothNeighborIds mesh iCell).filter
    (fun c => mask.getD (npIndex mesh.nCells c) false)

/-- One smoothing visit of an originally-inactive cell (lines 266-292):
`assert nonzero_num > 0` (line 277) and the zero-distance assert
(line 284) become error branches, `beta` takes the minimum of the active
neighbor values (line 287), `stiffnessFactor` the IDW average (line 289),
and any other field is rejected with `sys.exit` (line 291). -/
def smoothStep (mesh : Mesh) (varName : String) (mask : List Bool)
    (vals : List ℚ) (iCell : Nat) : Except String (List ℚ) :=
  if 0 < (smoothActiveNeighborIds mesh mask iCell).length then
    if ((smoothActiveNeighborIds mesh mask iCell).map (ds mesh iCell)).all
        (fun d => d != 0) then
      if varName = "beta" then
        Except.ok (vals.set iCell
          (listMin ((smoothActiveNeighborIds mesh mask iCell).map
            (fun j => vals.getD (npIndex mesh.nCells j) 0))))
      else if varName = "stiffnessFactor" then
        Except.ok (vals.set iCell
          (idwInterp ((smoothActiveNeighborIds mesh mask iCell).map (ds mesh iCell))
            ((smoothActiveNeighborIds mesh mask iCell).map
              (fun j => vals.getD (npIndex mesh.nCells j) 0))))
      else Except.error "Smoothing is only for beta and stiffness for now. Set option i to 0 to disable smoothing!"
    else Except.error "AssertionError: zero distance to an active neighbor"
  else Except.error "AssertionError: zero active neighbors in smoothing"

/-- One smoothing iteration (lines 263-292): visit, in order, every cell
that was inactive in the original mask `maskOld` (`keepCellMaskOld`),
reading activity from the final mask `mask` (`keepCellMask`). -/
def smoothPass (mesh : Mesh) (varName : String) (maskOld mask : List Bool)
    (vals : List ℚ) : Except String (List ℚ) :=
  (searchCellsOf mesh.nCells maskOld).foldlM (smoothStep mesh varName mask) vals

/-- The smoothing while-loop (lines 260-296): `iter_num` counts from 0 up
to the requested iteration count, so the phase performs exactly `iters`
passes; with `iters = 0` the body never runs. -/
def smoothRun (mesh : Mesh) (varName : String) (maskOld mask : List Bool) :
    Nat → List ℚ → Except String (List ℚ)
  | 0, vals => Except.ok vals
  | iters + 1, vals =>
    match smoothPass mesh varName maskOld mask vals with
    | Except.error e => Except.error e
    | Except.ok v2 => smoothRun mesh varName maskOld mask iters v2

/-- Relative-tolerance ε of the coordinate match (lines 122-123): `1e-10`. -/
def coordEps : ℚ := 1 / 10 ^ 10

/-- Relative tolerance of the coordinate match (lines 122-123): `1e-3`. -/
def coordTol : ℚ := 1 / 10 ^ 3

/-- `index_x` (line 122) / `index_y` (line 123): the cells whose
coordinate matches the sample coordinate `c` within relative tolerance
`|coords[i] - c| / (|coords[i]| + 1e-10) < 1e-3`. -/
def coordMatchIdx (coords : List ℚ) (c : ℚ) : List Nat :=
  (List.range coords.length).filter
    (fun i => decide (|coords.getD i 0 - c| / (|coords.getD i 0| + coordEps) < coordTol))

/-- Resolution of one source sample (lines 122-126): intersect the x and
y candidate sets and take an element; `index_intersect[0]` raises an
uncaught `IndexError` when the intersection is empty, which halts the
run and is modeled as the error result.  The source materializes the
intersection through Python sets, whose iteration order is unspecified;
only emptiness of the intersection is relied upon below, so the
embedding takes the first x-candidate that also matches in y. -/
def coordResolveOne (x y : List ℚ) (xs ys : ℚ) : Except String Nat :=
  match (coordMatchIdx x xs).filter (fun i => (coordMatchIdx y ys).contains i) with
  | [] => Except.error "IndexError: list index out of range"
  | i :: _ => Except.ok i

/-- The coordinate-method resolution loop (lines 118-129): for each of
the `node_num_layer` samples in order, resolve the matching cell and
record it 1-based (`index + 1`, line 126). -/
def coordResolve (x y : List ℚ) (xexo yexo : List ℚ) :
    Except String (List Int) :=
  (List.range xexo.length).foldlM
    (fun acc i =>
      match coordResolveOne x y (xexo.getD i 0) (yexo.getD i 0) with
      | Except.error e => Except.error e
      | Except.ok idx => Except.ok (acc ++ [(idx : Int) + 1]))
    []

/-- The correspondence-method dispatch (lines 118-136): `coord` runs the
coordinate search, `id` loads the precomputed file and drops its first
entry (`usefulCellID[1::]`, line 133 — the leading declared count is
skipped without any comparison against the sample count), and any other
method is rejected with `sys.exit` (line 136). -/
def resolveCorrespondence (method : String) (x y xexo yexo : List ℚ)
    (idFile : List Int) : Except String (List Int) :=
  if method = "coord" then coordResolve x y xexo yexo
  else if method = "id" then Except.ok (idFile.drop 1)
  else Except.error "Unsupported conversion method chosen! Set option m as id or coord!"

/-- The program-order prefix of the run relevant to correspondence
failures: resolution (lines 118-136) completes before the per-layer
writes (lines 145-179) begin, so a resolution error halts the run with
the target field still untouched; the write here is the plain per-layer
transplant `dataset.variables[var][0, usefulCellID_array - 1] =
data_exo_layer` (line 179). -/
def runConversionPrefix (method : String) (x y xexo yexo : List ℚ)
    (idFile : List Int) (dataExoLayer targetVals : List ℚ) :
    Except String (List ℚ) :=
  match resolveCorrespondence method x y xexo yexo idFile with
  | Except.error e => Except.error e
  | Except.ok ids =>
    Except.ok (writeAt targetVals
      (ids.map (fun i => npIndex targetVals.length (i - 1))) dataExoLayer)

/-- Concrete two-cell mesh whose second cell is isolated: cell 0 has the
single neighbor id 2 (cell 1), cell 1 has degree zero. -/
def mesh2iso : Mesh :=
  ⟨2, [0, 3], [0, 0], [[2], []], [1, 0]⟩

/-- Loop state on `mesh2iso` with cell 0 active and the isolated cell 1
inactive. -/
def s0iso : ExtState :=
  ⟨[10, 0], [true, false], [true, false]⟩

/-- Concrete three-cell line mesh used to instantiate universally
quantified theorems: cell 1 neighbors cells 0 and 2, the outer cells
neighbor cell 1, and cell 2 also carries a sentinel slot. -/
def mesh3 : Mesh :=
  ⟨3, [0, 1, 2], [0, 0, 0], [[2], [1, 3], [2, 0]], [1, 2, 2]⟩

theorem errorBind {ε α β : Type} (e : ε) (g : α → Except ε β) :
    (Except.error e >>= g) = Except.error e := rfl

theorem okBind {ε α β : Type} (a : α) (g : α → Except ε β) :
    (Except.ok a >>= g : Except ε β) = g a := rfl

/-- A monadic fold over `Except` fails as soon as any visited element
fails, whatever the accumulator at that point. -/
theorem foldlM_except_error {α β : Type} (f : β → α → Except String β) (x : α)
    (hf : ∀ acc, ∃ e, f acc x = Except.error e) :
    ∀ (L : List α), x ∈ L → ∀ acc, ∃ e, L.foldlM f acc = Except.error e := by
  intro L
  induction L with
  | nil => intro hx; cases hx
  | cons y L ih =>
    intro hx acc
    rw [List.foldlM_cons]
    cases hfy : f acc y with
    | error e => exact ⟨e, rfl⟩
    | ok acc2 =>
      rcases List.mem_cons.mp hx with h | h
      · obtain ⟨e2, he2⟩ := hf acc
        rw [h, hfy] at he2
        cases he2
      · obtain ⟨e, he⟩ := ih h acc2
        exact ⟨e, he⟩

/-- C1: the transplant step does not preserve thickness + bedTopography.
At the corresponded cell 0 with old thickness 100, old bedTopography -50
and new thickness 10, the branch returns bedTopography -50 unchanged
(line 166 already overwrote thickness before lines 169-171 snapshot the
"original" values, so the update cancels), whereas the claimed
sum-preserving update would give (100 + (-50)) - 10 = 40. -/
theorem C1_bed_update_cancels :
    thicknessBranch [0] [10] [100] [-50] true = ([10], [-50]) ∧
    (100 : ℚ) + (-50) - 10 = 40 ∧ ((-50 : ℚ)) ≠ 40 :=
  ⟨by norm_num [thicknessBranch, writeAt, readAt], by norm_num, by norm_num⟩

/-- C3 (counterexample): the precomputed-lookup resolver does not check
the declared count.  With a map file declaring 5 entries but holding 2,
and 2 source samples, resolution succeeds with the 2 entries instead of
reporting a mismatch. -/
theorem C3_declared_count_ignored_cex :
    resolveCorrespondence "id" [] [] [0, 0] [0, 0] [5, 1, 2] = Except.ok [1, 2] ∧
    ([(0 : ℚ), 0] : List ℚ).length = 2 ∧ (5 : Int) ≠ 2 :=
  ⟨rfl, rfl, by decide⟩

/-- C3 (amended): the id-method resolver skips the leading declared count
of the map file and proceeds with the remaining entries, performing no
validation — even when the declared count disagrees with the number of
remaining entries it returns them without an error. -/
theorem C3_id_method_skips_leading_count :
    ∀ (x y xexo yexo : List ℚ) (idFile : List Int),
      idFile.headD 0 ≠ ((idFile.drop 1).length : Int) →
      resolveCorrespondence "id" x y xexo yexo idFile = Except.ok (idFile.drop 1) := by
  intro x y xexo yexo idFile _
  rfl

theorem C3_id_method_skips_leading_count_witness :
    resolveCorrespondence "id" [] [] [7] [7] [9, 3] = Except.ok [3] :=
  C3_id_method_skips_leading_count [] [] [7] [7] [9, 3] (by decide)

/-- C5: a requested field absent from the target output field set halts
the run with a reported error instead of performing the write: either
the name is outside the supported dictionary (uncaught KeyError at
line 65) or the layer probe of the absent output variable fails
(uncaught KeyError at line 139); both precede the per-layer dispatch, so
no write action is ever produced for an absent field. -/
theorem C5_absent_field_errors_before_write :
    ∀ (varName : String) (datasetVars : List String) (nVertMax : Nat),
      datasetVars.contains varName = false →
      ∃ e, transplantDispatch varName datasetVars nVertMax = Except.error e := by
  intro varName datasetVars nVertMax habs
  unfold transplantDispatch
  cases mpasExodusVarDic varName with
  | error e => exact ⟨e, rfl⟩
  | ok s =>
    refine ⟨"KeyError: variable not found in dataset", ?_⟩
    have hnm : varName ∉ datasetVars := by simpa using habs
    simp [hnm]

theorem C5_absent_field_errors_before_write_witness :
    ∃ e, transplantDispatch "surfaceTemperature" ["thickness"] 1 = Except.error e :=
  C5_absent_field_errors_before_write "surfaceTemperature" ["thickness"] 1 (by decide)

/-- C8: for the thickness field the extrapolation phase is skipped
entirely (lines 215-216): whatever the mesh, scheme, fuel and state, the
phase returns the state unchanged, so no cell is filled by
extrapolation. -/
theorem C8_thickness_skips_extrapolation :
    ∀ (mesh : Mesh) (scheme : String) (fuel : Nat) (st : ExtState),
      runExtrapolationPhase mesh "thickness" scheme fuel st = Except.ok (st, true) := by
  intro mesh scheme fuel st
  rfl

theorem C8_thickness_skips_extrapolation_witness :
    runExtrapolationPhase mesh2iso "thickness" "min" 5 s0iso = Except.ok (s0iso, true) :=
  C8_thickness_skips_extrapolation mesh2iso "min" 5 s0iso

/-- C9: a requested smoothing iteration count of zero performs no pass:
the field is returned unchanged and no error is raised, for every mesh,
field name and mask state. -/
theorem C9_zero_smoothing_iterations_noop :
    ∀ (mesh : Mesh) (varName : String) (maskOld mask : List Bool) (vals : List ℚ),
      smoothRun mesh varName maskOld mask 0 vals = Except.ok vals := by
  intro mesh varName maskOld mask vals
  rfl

theorem C9_zero_smoothing_iterations_noop_witness :
    smoothRun mesh2iso "beta" [true, false] [true, true] 0 [10, 0] = Except.ok [10, 0] :=
  C9_zero_smoothing_iterations_noop mesh2iso "beta" [true, false] [true, true] [10, 0]

/-- C10: the two phases treat the reserved no-neighbor id 0 differently.
If a cell's declared-degree neighbor slots contain a sentinel 0, the
extrapolation phase keeps it as index -1, which numpy resolves to the
last cell `nCells - 1` — that cell is then treated as a neighbor; the
smoothing phase filters the sentinel out, so no `-1` entry survives in
its neighbor list. -/
theorem C10_sentinel_treatment_differs :
    ∀ (mesh : Mesh) (iCell : Nat),
      ((0 : Int) ∈ rawNeighborIds mesh iCell →
        (-1 : Int) ∈ extrapNeighborIds mesh iCell ∧
        mesh.nCells - 1 ∈ extrapNeighborIdx mesh iCell) ∧
      (-1 : Int) ∉ smoothNeighborIds mesh iCell := by
  intro mesh iCell
  constructor
  · intro h0
    have h1 : (-1 : Int) ∈ extrapNeighborIds mesh iCell := by
      unfold extrapNeighborIds
      exact List.mem_map.mpr ⟨0, h0, by norm_num⟩
    refine ⟨h1, ?_⟩
    unfold extrapNeighborIdx
    refine List.mem_map.mpr ⟨-1, h1, ?_⟩
    unfold npIndex
    rw [if_pos (by norm_num)]
    omega
  · intro hmem
    unfold smoothNeighborIds at hmem
    have h2 := (List.mem_filter.mp hmem).2
    norm_num at h2

theorem C10_sentinel_treatment_differs_witness :
    (0 : Int) ∈ rawNeighborIds mesh3 2 ∧
    ((-1 : Int) ∈ extrapNeighborIds mesh3 2 ∧
      mesh3.nCells - 1 ∈ extrapNeighborIdx mesh3 2) ∧
    (-1 : Int) ∉ smoothNeighborIds mesh3 2 :=
  ⟨by decide, (C10_sentinel_treatment_differs mesh3 2).1 (by decide),
    (C10_sentinel_treatment_differs mesh3 2).2⟩

/-- C7: the mask builder marks a cell active under `grd` exactly when
`thickness * 910 / 1028 + bedrock > 0`, under `all` exactly when
`thickness > 0`, and rejects any other selector with an error; it
returns only the mask and touches no field value. -/
theorem C7_mask_builder_predicates :
    ∀ (th bed : List ℚ) (s : String),
      (∃ m, buildKeepCellMask "grd" th bed = Except.ok m ∧
        ∀ i, i < th.length → i < bed.length →
          (m.getD i false = true ↔
            th.getD i 0 * ice_density / ocean_density + bed.getD i 0 > 0)) ∧
      (∃ m, buildKeepCellMask "all" th bed = Except.ok m ∧
        ∀ i, i < th.length → (m.getD i false = true ↔ th.getD i 0 > 0)) ∧
      (s ≠ "grd" → s ≠ "all" → ∃ e, buildKeepCellMask s th bed = Except.error e) := by
  intro th bed s
  refine ⟨⟨_, rfl, ?_⟩, ⟨_, rfl, ?_⟩, ?_⟩
  · intro i h1 h2
    have hlen : i < (List.zipWith
        (fun t b => decide (t * ice_density / ocean_density + b > 0)) th bed).length := by
      rw [List.length_zipWith]
      omega
    rw [List.getD_eq_getElem _ _ hlen, List.getElem_zipWith,
      List.getD_eq_getElem _ _ h1, List.getD_eq_getElem _ _ h2]
    simp
  · intro i h1
    have hlen : i < (th.map (fun t => decide (t > 0))).length := by
      rw [List.length_map]
      omega
    rw [List.getD_eq_getElem _ _ hlen, List.getElem_map,
      List.getD_eq_getElem _ _ h1]
    simp
  · intro hg ha
    unfold buildKeepCellMask
    rw [if_neg hg, if_neg ha]
    exact ⟨_, rfl⟩

theorem C7_mask_builder_predicates_witness :
    ∃ e, buildKeepCellMask "foo" [(1 : ℚ)] [(0 : ℚ)] = Except.error e :=
  (C7_mask_builder_predicates [(1 : ℚ)] [(0 : ℚ)] "foo").2.2 (by decide) (by decide)

/-- C6: if some source sample's x-candidate and y-candidate sets have an
empty intersection, the coordinate-method run halts with an error (the
source raises an uncaught IndexError at `index_intersect[0]`, line 125)
and no target field value is produced: the pipeline result is the error,
not a written field. -/
theorem C6_coord_empty_intersection_halts :
    ∀ (x y xexo yexo : List ℚ) (idFile : List Int) (dataL vals : List ℚ) (i : Nat),
      i < xexo.length →
      (coordMatchIdx x (xexo.getD i 0)).filter
        (fun j => (coordMatchIdx y (yexo.getD i 0)).contains j) = [] →
      ∃ msg, runConversionPrefix "coord" x y xexo yexo idFile dataL vals =
        Except.error msg := by
  intro x y xexo yexo idFile dataL vals i hi hempty
  have hone : coordResolveOne x y (xexo.getD i 0) (yexo.getD i 0) =
      Except.error "IndexError: list index out of range" := by
    unfold coordResolveOne
    rw [hempty]
  have hres : ∃ e, coordResolve x y xexo yexo = Except.error e := by
    unfold coordResolve
    exact foldlM_except_error _ i (fun acc => ⟨_, by rw [hone]⟩)
      (List.range xexo.length) (List.mem_range.mpr hi) []
  obtain ⟨e, he⟩ := hres
  refine ⟨e, ?_⟩
  unfold runConversionPrefix resolveCorrespondence
  rw [if_pos rfl, he]

theorem C6_coord_empty_intersection_halts_witness :
    ∃ msg, runConversionPrefix "coord" [] [] [(2 : ℚ)] [(2 : ℚ)] [] [] [] =
      Except.error msg :=
  C6_coord_empty_intersection_halts [] [] [(2 : ℚ)] [(2 : ℚ)] [] [] [] 0
    (by decide) rfl

theorem getD_set_ne {α : Type} (l : List α) {i j : Nat} (a d : α) (h : i ≠ j) :
    (l.set i a).getD j d = l.getD j d := by
  simp [List.getD, List.getElem?_set_ne h]

/-- C2: the extrapolation loop does not terminate when a pass makes no
progress while inactive cells remain.  On the two-cell mesh whose second
cell is isolated, the guard never fails and every amount of fuel is
exhausted with the state unchanged — the source, which has no
zero-progress check, loops forever instead of reporting the
condition. -/
theorem C2_extrap_loop_nonterminating :
    countTrue s0iso.maskCur ≠ mesh2iso.nCells ∧
    extrapLoopBody mesh2iso "min" s0iso = Except.ok s0iso ∧
    ∀ fuel, runExtrapolationLoop mesh2iso "min" fuel s0iso = Except.ok (s0iso, false) := by
  have hcond : countTrue s0iso.maskCur ≠ mesh2iso.nCells := by decide
  have hbody : extrapLoopBody mesh2iso "min" s0iso = Except.ok s0iso := rfl
  refine ⟨hcond, hbody, ?_⟩
  intro fuel
  induction fuel with
  | zero => rfl
  | succ n ih =>
    show runExtrapolationLoop mesh2iso "min" (n + 1) s0iso = Except.ok (s0iso, false)
    rw [runExtrapolationLoop, if_neg hcond, hbody]
    exact ih

theorem C2_extrap_loop_nonterminating_witness :
    runExtrapolationLoop mesh2iso "min" 4 s0iso = Except.ok (s0iso, false) :=
  C2_extrap_loop_nonterminating.2.2 4

theorem extrapStep_eq_frozen (mesh : Mesh) (scheme : String) (mask : List Bool)
    (vals0 : List ℚ) (acc : List ℚ × List Bool) (i : Nat)
    (hagree : ∀ j, mask.getD j false = true → acc.1.getD j 0 = vals0.getD j 0) :
    extrapStep mesh scheme mask acc i = extrapStepFrozen mesh scheme mask vals0 acc i := by
  unfold extrapStep extrapStepFrozen
  have hadj : extrapVarAdj mesh mask acc.1 i = extrapVarAdj mesh mask vals0 i := by
    unfold extrapVarAdj
    apply List.map_congr_left
    intro j hj
    have hjm : mask.getD (npIndex mesh.nCells j) false = true := by
      have h2 := (List.mem_filter.mp hj).2
      simpa using h2
    exact hagree _ hjm
  rw [hadj]

theorem extrapStep_preserves_agree (mesh : Mesh) (scheme : String) (mask : List Bool)
    (vals0 : List ℚ) (acc acc2 : List ℚ × List Bool) (i : Nat)
    (hi : mask.getD i false = false)
    (hok : extrapStep mesh scheme mask acc i = Except.ok acc2)
    (hagree : ∀ j, mask.getD j false = true → acc.1.getD j 0 = vals0.getD j 0) :
    ∀ j, mask.getD j false = true → acc2.1.getD j 0 = vals0.getD j 0 := by
  intro j hj
  have hij : i ≠ j := by
    intro h
    rw [h, hj] at hi
    cases hi
  unfold extrapStep at hok
  by_cases h1 : 0 < (activeNeighborIds mesh mask i).length
  · rw [if_pos h1] at hok
    by_cases h2 : (activeDs mesh mask i).all (fun d => d != 0)
    · rw [if_pos h2] at hok
      unfold extrapAssign at hok
      by_cases h3 : scheme = "idw"
      · rw [if_pos h3] at hok
        cases hok
        rw [getD_set_ne _ _ _ hij]
        exact hagree j hj
      · rw [if_neg h3] at hok
        by_cases h4 : scheme = "min"
        · rw [if_pos h4] at hok
          cases hok
          rw [getD_set_ne _ _ _ hij]
          exact hagree j hj
        · rw [if_neg h4] at hok
          cases hok
    · rw [if_neg h2] at hok
      cases hok
  · rw [if_neg h1] at hok
    cases hok
    exact hagree j hj

theorem extrapFold_eq_frozen (mesh : Mesh) (scheme : String) (mask : List Bool)
    (vals0 : List ℚ) :
    ∀ (L : List Nat), (∀ i ∈ L, mask.getD i false = false) →
      ∀ (acc : List ℚ × List Bool),
        (∀ j, mask.getD j false = true → acc.1.getD j 0 = vals0.getD j 0) →
        L.foldlM (extrapStep mesh scheme mask) acc =
          L.foldlM (extrapStepFrozen mesh scheme mask vals0) acc := by
  intro L
  induction L with
  | nil => intro _ acc _; rfl
  | cons i L ih =>
    intro hmem acc hagree
    rw [List.foldlM_cons, List.foldlM_cons,
      ← extrapStep_eq_frozen mesh scheme mask vals0 acc i hagree]
    cases hstep : extrapStep mesh scheme mask acc i with
    | error e => rfl
    | ok acc2 =>
      exact ih (fun x hx => hmem x (List.mem_cons_of_mem _ hx)) acc2
        (extrapStep_preserves_agree mesh scheme mask vals0 acc acc2 i
          (hmem i (List.mem_cons_self _ _)) hstep hagree)

/-- C4: an extrapolation pass classifies neighbors with the mask frozen
at the start of the pass and records activations only in the separate
`keepCellMaskNew`, and it never consumes a value written during the same
pass: the sequential pass coincides, on every mesh, scheme and state,
with the variant whose neighbor values are all read from the
start-of-pass snapshot — one adjacency-ring of growth per pass. -/
theorem C4_pass_uses_frozen_mask_and_values :
    ∀ (mesh : Mesh) (scheme : String) (st : List ℚ × List Bool),
      extrapolationPass mesh scheme st = extrapolationPassFrozen mesh scheme st := by
  intro mesh scheme st
  unfold extrapolationPass extrapolationPassFrozen
  apply extrapFold_eq_frozen
  · intro i hi
    have h2 := (List.mem_filter.mp hi).2
    simpa using h2
  · intro j _
    rfl

theorem C4_pass_uses_frozen_mask_and_values_witness :
    extrapolationPass mesh3 "min" ([5, 0, 7], [true, false, true]) =
      extrapolationPassFrozen mesh3 "min" ([5, 0, 7], [true, false, true]) :=
  C4_pass_uses_frozen_mask_and_values mesh3 "min" ([5, 0, 7], [true, false, true])
